import Mathlib

/-!
Verification development for the `wsdl-test-generator` backend
(`backend/app/wsdl_parser.py` and `backend/app/xml_generator.py`).

XML documents produced by lxml are modelled as ordered element trees
(`XNode`).  Since `parse_wsdl` always queries elements through the fixed
prefix map declared in the source (wsdl, soap, soap12, xsd), element tags
are modelled directly by those canonical prefixed names (for example
"wsdl:binding"): lxml matches on the expanded namespace-qualified name,
and the fixed prefix map makes the canonical prefixed name a faithful
stand-in for it.
-/

/-- An XML element: tag, attributes in document order, children in
document order.  Text content is irrelevant to the parser and is not
modelled. -/
inductive XNode where
  | mk (tag : String) (attrs : List (String × String)) (children : List XNode)
deriving Repr

def XNode.tag : XNode → String
  | .mk t _ _ => t

def XNode.attrs : XNode → List (String × String)
  | .mk _ a _ => a

def XNode.children : XNode → List XNode
  | .mk _ _ c => c

/-- Model of `element.get(key)`: first attribute with the given name, if any. -/
def getAttr (k : String) (n : XNode) : Option String :=
  (n.attrs.find? (fun p => p.1 == k)).map (fun p => p.2)

mutual

/-- One element followed by its descendants, in document order. -/
def nodeDesc : XNode → List XNode
  | .mk t a c => .mk t a c :: descList c

/-- Pre-order (document-order) list of all elements of a forest,
each followed by its descendants. -/
def descList : List XNode → List XNode
  | [] => []
  | x :: xs => nodeDesc x ++ descList xs

end

/-- Model of `element.find(".//tag", ns)`: first descendant (document order,
excluding the element itself) with the given tag. -/
def findDeep (tag : String) (t : XNode) : Option XNode :=
  (descList t.children).find? (fun n => n.tag == tag)

/-- Model of `element.find(".//tag[@name='v']", ns)` for the attribute-filtered
searches of the source (the source interpolates the attribute value into
the XPath literal; values containing a quote are outside this model). -/
def findDeepAttr (tag attrKey attrVal : String) (t : XNode) : Option XNode :=
  (descList t.children).find?
    (fun n => n.tag == tag && getAttr attrKey n == some attrVal)

/-- First result of `f` over a list, in order. -/
def firstSome (f : α → Option β) : List α → Option β
  | [] => none
  | x :: xs =>
    match f x with
    | some b => some b
    | none => firstSome f xs

/-- Model of `tree.find(".//wsdl:service/wsdl:port/" + addrTag, ns)`: first
address element (document order) reached by a service descendant, a port
child and an address child. -/
def servicePortAddress (addrTag : String) (t : XNode) : Option XNode :=
  firstSome
    (fun s =>
      if s.tag == "wsdl:service" then
        firstSome
          (fun p =>
            if p.tag == "wsdl:port" then
              p.children.find? (fun a => a.tag == addrTag)
            else none)
          s.children
      else none)
    (descList t.children)

/-- Python `s.split(':')[-1]`: the suffix after the last colon, the
whole string when there is none. -/
def lastColonSegment (s : String) : String :=
  String.mk ((s.data.reverse.takeWhile (fun c => c ≠ ':')).reverse)

/-- Python `dict` insertion: an existing key keeps its position and gets
the new value, a new key is appended. -/
def dictInsert (k v : String) : List (String × String) → List (String × String)
  | [] => [(k, v)]
  | (k', v') :: rest =>
    if k' == k then (k', v) :: rest else (k', v') :: dictInsert k v rest

/-- Source `backend/app/wsdl_parser.py`, `_get_element_schema`: flatten the
immediate `xsd:element` children of the first `xsd:sequence` (else
`xsd:choice`) descendant into a name-to-type-tag mapping.  An element
whose `name` attribute is absent or empty (Python falsy) is skipped; a
missing `type` attribute defaults to "string". -/
def get_element_schema (element : Option XNode) : List (String × String) :=
  match element with
  | none => []
  | some el =>
    let container :=
      match findDeep "xsd:sequence" el with
      | some c => some c
      | none => findDeep "xsd:choice" el
    match container with
    | none => []
    | some c =>
      (c.children.filter (fun n => n.tag == "xsd:element")).foldl
        (fun sch child =>
          let childType := lastColonSegment ((getAttr "type" child).getD "string")
          match getAttr "name" child with
          | none => sch
          | some nm => if nm == "" then sch else dictInsert nm childType sch)
        []

/-- One extracted WSDL operation (`WsdlOperation` in the source). -/
structure WsdlOperation where
  name : String
  action : String
  input_schema : List (String × String)
deriving Repr, DecidableEq

/-- One parsed WSDL (`WsdlInfo` in the source). -/
structure WsdlInfo where
  file_name : String
  binding_name : String
  target_namespace : String
  service_endpoint_url : String
  operations : List WsdlOperation
deriving Repr, DecidableEq

/-- Failure modes of `parse_wsdl`.  The source turns every failure into a
single `ValueError` whose message distinguishes the cases: a parse that
yields no document, the two explicit `raise ValueError` sites, an
`AttributeError` from calling `.split` on a missing attribute, and a
pydantic validation error from a `None` value in a `str` field. -/
inductive ParseError where
  | malformedDocument
  | missingBinding
  | missingEndpoint
  | attributeError
  | validationError
deriving Repr, DecidableEq

/-- Python `f"...{x}..."` for an optional string (None prints as "None"),
used by the interpolated XPath query for the binding operation. -/
def pyStr (s : Option String) : String :=
  match s with
  | none => "None"
  | some s => s

/-- The SOAP action recovered from the binding's per-operation block
(`backend/app/wsdl_parser.py` lines 77-83): empty string when the
binding operation, its `soap:operation` child, or the `soapAction`
attribute is absent. -/
def soapActionOf (binding : XNode) (op_name : Option String) : String :=
  match binding.children.find?
      (fun c => c.tag == "wsdl:operation" && getAttr "name" c == some (pyStr op_name)) with
  | none => ""
  | some bo =>
    match bo.children.find? (fun c => c.tag == "soap:operation") with
    | none => ""
    | some so => (getAttr "soapAction" so).getD ""

/-- The input schema of one operation (`backend/app/wsdl_parser.py`
lines 85-96): resolve the input message part's referenced schema element
and flatten it; every unresolved step yields the empty schema, except a
missing `message` attribute, which raises (`None.split`). -/
def inputSchemaOf (tree op : XNode) : Except ParseError (List (String × String)) :=
  match op.children.find? (fun c => c.tag == "wsdl:input") with
  | none => Except.ok []
  | some input_tag =>
    match getAttr "message" input_tag with
    | none => Except.error ParseError.attributeError
    | some msg =>
      let message_name := lastColonSegment msg
      match findDeepAttr "wsdl:message" "name" message_name tree with
      | none => Except.ok []
      | some message =>
        match message.children.find? (fun c => c.tag == "wsdl:part") with
        | none => Except.ok []
        | some part =>
          match getAttr "element" part with
          | none => Except.ok []
          | some el =>
            let element_name := lastColonSegment el
            Except.ok (get_element_schema
              (findDeepAttr "xsd:element" "name" element_name tree))

/-- Source `backend/app/wsdl_parser.py` lines 74-103: build one `WsdlOperation`
from a `wsdl:operation` child of the port type.  A `wsdl:operation`
without a `name` attribute fails pydantic validation of the `str` field
`name`. -/
def buildOp (tree binding op : XNode) : Except ParseError WsdlOperation :=
  let op_name := getAttr "name" op
  let soap_action := soapActionOf binding op_name
  match inputSchemaOf tree op with
  | Except.error e => Except.error e
  | Except.ok input_schema =>
    match op_name with
    | none => Except.error ParseError.validationError
    | some nm => Except.ok { name := nm, action := soap_action, input_schema }

/-- The loop body over the port type's declared operations, appending in
order; the first failing operation aborts, like the source's loop inside
`try`. -/
def collectOpsList (tree binding : XNode) : List XNode → Except ParseError (List WsdlOperation)
  | [] => Except.ok []
  | op :: rest =>
    match buildOp tree binding op with
    | Except.error e => Except.error e
    | Except.ok w =>
      match collectOpsList tree binding rest with
      | Except.error e => Except.error e
      | Except.ok ws => Except.ok (w :: ws)

/-- The port type's declared operations, built in order. -/
def collectOps (tree binding pt : XNode) : Except ParseError (List WsdlOperation) :=
  collectOpsList tree binding (pt.children.filter (fun n => n.tag == "wsdl:operation"))

/-- The service address lookup of `parse_wsdl` lines 62-64: the SOAP-1.1
address, else the SOAP-1.2 address. -/
def findSoapAddress (tree : XNode) : Option XNode :=
  match servicePortAddress "soap:address" tree with
  | some a => some a
  | none => servicePortAddress "soap12:address" tree

/-- Source `backend/app/wsdl_parser.py`, `parse_wsdl`.  The recovering lxml
parse is modelled by the `parsed` argument: `none` when even the
recover-mode parse yields no document, `some tree` otherwise. -/
def parse_wsdl (parsed : Option XNode) (file_name : String) : Except ParseError WsdlInfo :=
  match parsed with
  | none => Except.error ParseError.malformedDocument
  | some tree =>
    let target_namespace := getAttr "targetNamespace" tree
    match findDeep "wsdl:binding" tree with
    | none => Except.error ParseError.missingBinding
    | some binding =>
      let binding_name := getAttr "name" binding
      match findSoapAddress tree with
      | none => Except.error ParseError.missingEndpoint
      | some soap_address =>
        let service_endpoint_url := getAttr "location" soap_address
        match getAttr "type" binding with
        | none => Except.error ParseError.attributeError
        | some btype =>
          let port_type_name := lastColonSegment btype
          let opsResult :=
            match findDeepAttr "wsdl:portType" "name" port_type_name tree with
            | none => Except.ok []
            | some pt => collectOps tree binding pt
          match opsResult with
          | Except.error e => Except.error e
          | Except.ok operations =>
            match target_namespace, binding_name, service_endpoint_url with
            | some tn, some bn, some url =>
              Except.ok { file_name, binding_name := bn, target_namespace := tn,
                          service_endpoint_url := url, operations }
            | _, _, _ => Except.error ParseError.validationError

/-!
`backend/app/xml_generator.py`.

Each call to `_generate_uuid()` is modelled as consuming the next index
of an ambient identifier supply `f : Nat → String`; every renderer takes
and returns the index of the next unconsumed identifier, in the exact
order the source mints them.
-/

/-- The identifier supply standing for `uuid.uuid4()` draws. -/
abbrev UuidSupply := Nat → String

/-- One assertion dict as consumed by `create_test_step_xml`: the keys
"type", "path" and "value" are optional (`dict.get`). -/
structure AssertionData where
  type : Option String
  path : Option String
  value : Option String
deriving Repr, DecidableEq

/-- One test-case dict as consumed by the renderers.  The keys "name",
"operation" and "payload" are accessed unconditionally by the source,
"assertions" defaults to the empty list; payload values are interpolated
with `str()` and modelled as already-stringified. -/
structure TestCaseData where
  name : String
  operation : String
  payload : List (String × String)
  assertions : List AssertionData
deriving Repr, DecidableEq

/-- Python `"sep".join(xs)`. -/
def pyJoin (sep : String) : List String → String
  | [] => ""
  | [x] => x
  | x :: xs => x ++ sep ++ pyJoin sep xs

/-- Python `str.title()` on `str.replace` output: an alphabetic
character is uppercased after a non-alphabetic character and lowercased
otherwise. -/
def pyTitleAux : Bool → List Char → List Char
  | _, [] => []
  | prevAlpha, c :: cs =>
    let c' := if c.isAlpha then (if prevAlpha then c.toLower else c.toUpper) else c
    c' :: pyTitleAux c.isAlpha cs

/-- Python `s.title()`. -/
def pyTitle (s : String) : String :=
  String.mk (pyTitleAux false s.data)

/-- Python `s.replace("_", " ")` (single-character pattern). -/
def replaceUnderscores (s : String) : String :=
  String.mk (s.data.map (fun c => if c = '_' then ' ' else c))

/-- The suite title of `assemble_full_project_xml` line 118. -/
def suiteNameFor (test_type : String) : String :=
  pyTitle (replaceUnderscores test_type) ++ " Tests"

/-- The body accumulation loop of `_build_request_payload` lines 11-13:
one element per payload entry, in insertion order. -/
def payloadBody (payload_data : List (String × String)) : String :=
  payload_data.foldl
    (fun body kv => body ++ ("<" ++ kv.1 ++ ">" ++ kv.2 ++ "</" ++ kv.1 ++ ">")) ""

/-- The envelope text of `_build_request_payload` before the body. -/
def envOpen (target_namespace op_name : String) : String :=
  "<soap:Envelope xmlns:soap=\"http://schemas.xmlsoap.org/soap/envelope/\" xmlns:tns=\"" ++
    target_namespace ++ "\">\n   <soap:Header/>\n   <soap:Body>\n      <tns:" ++
    op_name ++ ">\n         "

/-- The envelope text of `_build_request_payload` after the body. -/
def envClose (op_name : String) : String :=
  "\n      </tns:" ++ op_name ++ ">\n   </soap:Body>\n</soap:Envelope>"

/-- Source `backend/app/xml_generator.py`, `_build_request_payload`. -/
def build_request_payload (operation : WsdlOperation)
    (payload_data : List (String × String)) (target_namespace : String) : String :=
  envOpen target_namespace operation.name ++ payloadBody payload_data ++
    envClose operation.name

/-- The rendered XPath Match assertion block (source lines 48-56),
around its freshly minted identifier. -/
def xpathBlockOpen : String :=
  "<con:assertion type=\"XPath Match\" id=\""

/-- The rendered XPath Match assertion block after the identifier. -/
def xpathBlockClose (path value : String) : String :=
  "\">\n                    <con:configuration>\n                        <path>" ++
    path ++ "</path>\n                        <content>" ++ value ++
    "</content>\n                        <allowWildcards>false</allowWildcards>\n" ++
    "                        <ignoreNamspaceDifferences>true</ignoreNamspaceDifferences>\n" ++
    "                        <ignoreComments>true</ignoreComments>\n" ++
    "                    </con:configuration>\n                </con:assertion>"

/-- The assertion-loop body of `create_test_step_xml` lines 35-56: the
rendered block for one assertion dict (`none` when the dict contributes
nothing), together with the next identifier index.  An identifier is
minted only when a block is emitted. -/
def assertionXml (f : UuidSupply) (n : Nat) (a : AssertionData) : Option String × Nat :=
  if a.type == some "ValidStatusCode" then
    (some ("<con:assertion type=\"Valid HTTP Status Codes\" id=\"" ++ f n ++
      "\"><con:configuration><codes>" ++ a.value.getD "200" ++
      "</codes></con:configuration></con:assertion>"), n + 1)
  else if a.type == some "SOAPResponse" then
    (some ("<con:assertion type=\"SOAP Response\" id=\"" ++ f n ++ "\"/>"), n + 1)
  else if a.type == some "SOAPFault" then
    (some ("<con:assertion type=\"SOAP Fault\" id=\"" ++ f n ++ "\"/>"), n + 1)
  else if a.type == some "XPathMatch" then
    let path := a.path.getD ""
    let value := a.value.getD ""
    if path ≠ "" ∧ value ≠ "" then
      (some (xpathBlockOpen ++ f n ++ xpathBlockClose path value), n + 1)
    else (none, n)
  else (none, n)

/-- The `assertions_xml` list built by the loop, in order. -/
def assertionsXmlList (f : UuidSupply) (n : Nat) : List AssertionData → List String × Nat
  | [] => ([], n)
  | a :: rest =>
    let res := assertionXml f n a
    let tail := assertionsXmlList f res.2 rest
    match res.1 with
    | none => tail
    | some s => (s :: tail.1, tail.2)

/-- The test-step template (source lines 58-70) up to the CDATA payload. -/
def stepPartA (test_step_name binding_name op_name endpoint_url : String) : String :=
  "<con:testStep type=\"request\" name=\"" ++ test_step_name ++
    "\">\n    <con:settings/>\n    <con:config xsi:type=\"con:RequestStep\" " ++
    "xmlns:xsi=\"http://www.w3.org/2001/XMLSchema-instance\">\n        <con:interface>" ++
    binding_name ++ "</con:interface>\n        <con:operation>" ++ op_name ++
    "</con:operation>\n        <con:request name=\"" ++ test_step_name ++
    "\">\n            <con:endpoint>" ++ endpoint_url ++
    "</con:endpoint>\n            <con:request><![CDATA["

/-- The test-step template between the CDATA payload and the assertion
blocks. -/
def stepPartB : String :=
  "]]></con:request>\n            <con:credentials><con:selectedAuthProfile>" ++
    "No Authorization</con:selectedAuthProfile></con:credentials>\n            "

/-- The test-step template after the assertion blocks. -/
def stepPartC : String :=
  "\n        </con:request>\n    </con:config>\n</con:testStep>"

/-- Source `backend/app/xml_generator.py`, `create_test_step_xml`: empty string
when `operationRef` resolves to no operation of the descriptor. -/
def create_test_step_xml (f : UuidSupply) (n : Nat) (tc : TestCaseData)
    (w : WsdlInfo) : String × Nat :=
  match w.operations.find? (fun op => op.name == tc.operation) with
  | none => ("", n)
  | some operation =>
    let request_payload := build_request_payload operation tc.payload w.target_namespace
    let res := assertionsXmlList f n tc.assertions
    (stepPartA tc.name w.binding_name tc.operation w.service_endpoint_url ++
      request_payload ++ stepPartB ++ pyJoin "\n" res.1 ++ stepPartC, res.2)

/-- Source `backend/app/xml_generator.py`, `create_test_case_xml`: the step is
rendered first, then the test-case identifier is minted. -/
def create_test_case_xml (f : UuidSupply) (n : Nat) (tc : TestCaseData)
    (w : WsdlInfo) : String × Nat :=
  let step := create_test_step_xml f n tc w
  ("<con:testCase id=\"" ++ f step.2 ++ "\" name=\"" ++ tc.name ++
    "\">\n    <con:settings/>\n    " ++ step.1 ++ "\n</con:testCase>", step.2 + 1)

/-- The list comprehension of `create_test_suite_xml` lines 97-99. -/
def testCasesXmlList (f : UuidSupply) (n : Nat) (cases : List TestCaseData)
    (w : WsdlInfo) : List String × Nat :=
  match cases with
  | [] => ([], n)
  | tc :: rest =>
    let c := create_test_case_xml f n tc w
    let tail := testCasesXmlList f c.2 rest w
    (c.1 :: tail.1, tail.2)

/-- Source `backend/app/xml_generator.py`, `create_test_suite_xml`: the cases
are rendered first, then the suite identifier is minted. -/
def create_test_suite_xml (f : UuidSupply) (n : Nat) (suite_name : String)
    (cases : List TestCaseData) (w : WsdlInfo) : String × Nat :=
  let cs := testCasesXmlList f n cases w
  ("<con:testSuite id=\"" ++ f cs.2 ++ "\" name=\"" ++ suite_name ++
    "\">\n    <con:settings/>\n    <con:runType>SEQUENTIAL</con:runType>\n    " ++
    pyJoin "\n" cs.1 ++ "\n</con:testSuite>", cs.2 + 1)

/-- The suite loop of `assemble_full_project_xml` lines 115-120: a
requested category is rendered only when it is a key of the scenario
mapping. -/
def testSuitesXmlList (f : UuidSupply) (n : Nat) (test_options : List String)
    (test_json : List (String × List TestCaseData)) (w : WsdlInfo) : List String × Nat :=
  match test_options with
  | [] => ([], n)
  | t :: rest =>
    match test_json.lookup t with
    | none => testSuitesXmlList f n rest test_json w
    | some cases =>
      let s := create_test_suite_xml f n (suiteNameFor t) cases w
      let tail := testSuitesXmlList f s.2 rest test_json w
      (s.1 :: tail.1, tail.2)

/-- The operation-declaration loop of `assemble_full_project_xml` lines
122-124. -/
def operationsXmlList (f : UuidSupply) (n : Nat) : List WsdlOperation → List String × Nat
  | [] => ([], n)
  | op :: rest =>
    let s := "<con:operation id=\"" ++ f n ++ "\" isOneWay=\"false\" action=\"" ++
      op.action ++ "\" name=\"" ++ op.name ++ "\" bindingOperationName=\"" ++
      op.name ++ "\" type=\"Request-Response\"><con:settings/></con:operation>"
    let tail := operationsXmlList f (n + 1) rest
    (s :: tail.1, tail.2)

/-- Source `backend/app/xml_generator.py`, `assemble_full_project_xml`.  Supply
order follows the source: suite blocks, operation declarations, then the
project and interface identifiers of the final `format` call. -/
def assemble_full_project_xml (f : UuidSupply) (n : Nat) (w : WsdlInfo)
    (test_json : List (String × List TestCaseData)) (test_options : List String) :
    String × Nat :=
  let suites := testSuitesXmlList f n test_options test_json w
  let opsXml := operationsXmlList f suites.2 w.operations
  let project_id := f opsXml.2
  let interface_id := f (opsXml.2 + 1)
  ("<?xml version=\"1.0\" encoding=\"UTF-8\"?>\n<con:soapui-project id=\"" ++
    project_id ++ "\" activeEnvironment=\"Default\" name=\"" ++ w.binding_name ++
    "-SoapUI-Project\" resourceRoot=\"\" soapui-version=\"5.7.0\" " ++
    "xmlns:con=\"http://eviware.com/soapui/config\">\n    <con:settings/>\n    " ++
    "<con:interface xsi:type=\"con:WsdlInterface\" id=\"" ++ interface_id ++
    "\" name=\"" ++ w.binding_name ++ "\" bindingName=\"\x7b" ++ w.target_namespace ++
    "\x7d" ++ w.binding_name ++ "\" soapVersion=\"1_1\" definition=\"" ++ w.file_name ++
    "\" xmlns:xsi=\"http://www.w3.org/2001/XMLSchema-instance\">\n        " ++
    "<con:settings/>\n        <con:endpoints>\n            <con:endpoint>" ++
    w.service_endpoint_url ++ "</con:endpoint>\n        </con:endpoints>\n        " ++
    pyJoin "\n" opsXml.1 ++ "\n    </con:interface>\n    " ++ pyJoin "\n" suites.1 ++
    "\n    <con:properties/>\n</con:soapui-project>", opsXml.2 + 2)

/-!
Structural skeleton of the assembled document.  A `Frag` is either
literal text or the identifier drawn at a given supply index; the shape
functions below compute, for every renderer, the fragment skeleton of
its output.  They take no identifier supply, so the skeleton — the
literal text, and the positions and count of identifier tokens — is the
same for every run; the factorisation theorems connect them to the
renderers.
-/

/-- One fragment of a rendered document. -/
inductive Frag where
  | lit (s : String)
  | uuid (k : Nat)
deriving Repr, DecidableEq

/-- Instantiate a fragment list with an identifier supply. -/
def renderFrags (f : UuidSupply) : List Frag → String
  | [] => ""
  | Frag.lit s :: rest => s ++ renderFrags f rest
  | Frag.uuid k :: rest => f k ++ renderFrags f rest

/-- Fragment-level counterpart of `pyJoin`. -/
def sepFrags (sep : String) : List (List Frag) → List Frag
  | [] => []
  | [l] => l
  | l :: ls => l ++ (Frag.lit sep :: sepFrags sep ls)

/-- Skeleton of one rendered assertion block. -/
def assertionShape (n : Nat) (a : AssertionData) : Option (List Frag) × Nat :=
  if a.type == some "ValidStatusCode" then
    (some [Frag.lit "<con:assertion type=\"Valid HTTP Status Codes\" id=\"", Frag.uuid n,
      Frag.lit ("\"><con:configuration><codes>" ++ a.value.getD "200" ++
        "</codes></con:configuration></con:assertion>")], n + 1)
  else if a.type == some "SOAPResponse" then
    (some [Frag.lit "<con:assertion type=\"SOAP Response\" id=\"", Frag.uuid n,
      Frag.lit "\"/>"], n + 1)
  else if a.type == some "SOAPFault" then
    (some [Frag.lit "<con:assertion type=\"SOAP Fault\" id=\"", Frag.uuid n,
      Frag.lit "\"/>"], n + 1)
  else if a.type == some "XPathMatch" then
    let path := a.path.getD ""
    let value := a.value.getD ""
    if path ≠ "" ∧ value ≠ "" then
      (some [Frag.lit xpathBlockOpen, Frag.uuid n,
        Frag.lit (xpathBlockClose path value)], n + 1)
    else (none, n)
  else (none, n)

/-- Skeletons of the assertion blocks of one case, in order. -/
def assertionShapesList (n : Nat) : List AssertionData → List (List Frag) × Nat
  | [] => ([], n)
  | a :: rest =>
    let res := assertionShape n a
    let tail := assertionShapesList res.2 rest
    match res.1 with
    | none => tail
    | some l => (l :: tail.1, tail.2)

/-- Skeleton of one rendered test step. -/
def stepShape (n : Nat) (tc : TestCaseData) (w : WsdlInfo) : List Frag × Nat :=
  match w.operations.find? (fun op => op.name == tc.operation) with
  | none => ([], n)
  | some operation =>
    let request_payload := build_request_payload operation tc.payload w.target_namespace
    let res := assertionShapesList n tc.assertions
    (Frag.lit (stepPartA tc.name w.binding_name tc.operation w.service_endpoint_url ++
        request_payload ++ stepPartB) ::
      (sepFrags "\n" res.1 ++ [Frag.lit stepPartC]), res.2)

/-- Skeleton of one rendered test case. -/
def caseShape (n : Nat) (tc : TestCaseData) (w : WsdlInfo) : List Frag × Nat :=
  let sf := stepShape n tc w
  (Frag.lit "<con:testCase id=\"" :: Frag.uuid sf.2 ::
    Frag.lit ("\" name=\"" ++ tc.name ++ "\">\n    <con:settings/>\n    ") ::
    (sf.1 ++ [Frag.lit "\n</con:testCase>"]), sf.2 + 1)

/-- Skeletons of the test cases of one suite, in order. -/
def casesShapeList (n : Nat) (cases : List TestCaseData) (w : WsdlInfo) :
    List (List Frag) × Nat :=
  match cases with
  | [] => ([], n)
  | tc :: rest =>
    let c := caseShape n tc w
    let tail := casesShapeList c.2 rest w
    (c.1 :: tail.1, tail.2)

/-- Skeleton of one rendered test suite. -/
def suiteShape (n : Nat) (suite_name : String) (cases : List TestCaseData)
    (w : WsdlInfo) : List Frag × Nat :=
  let cs := casesShapeList n cases w
  (Frag.lit "<con:testSuite id=\"" :: Frag.uuid cs.2 ::
    Frag.lit ("\" name=\"" ++ suite_name ++
      "\">\n    <con:settings/>\n    <con:runType>SEQUENTIAL</con:runType>\n    ") ::
    (sepFrags "\n" cs.1 ++ [Frag.lit "\n</con:testSuite>"]), cs.2 + 1)

/-- Skeletons of the rendered suites, in caller order, one per requested
category present in the scenario mapping. -/
def suitesShapeList (n : Nat) (test_options : List String)
    (test_json : List (String × List TestCaseData)) (w : WsdlInfo) :
    List (List Frag) × Nat :=
  match test_options with
  | [] => ([], n)
  | t :: rest =>
    match test_json.lookup t with
    | none => suitesShapeList n rest test_json w
    | some cases =>
      let s := suiteShape n (suiteNameFor t) cases w
      let tail := suitesShapeList s.2 rest test_json w
      (s.1 :: tail.1, tail.2)

/-- Skeletons of the operation declarations, in order. -/
def opsShapeList (n : Nat) : List WsdlOperation → List (List Frag) × Nat
  | [] => ([], n)
  | op :: rest =>
    let sh := [Frag.lit "<con:operation id=\"", Frag.uuid n,
      Frag.lit ("\" isOneWay=\"false\" action=\"" ++ op.action ++ "\" name=\"" ++
        op.name ++ "\" bindingOperationName=\"" ++ op.name ++
        "\" type=\"Request-Response\"><con:settings/></con:operation>")]
    let tail := opsShapeList (n + 1) rest
    (sh :: tail.1, tail.2)

/-- Skeleton of the whole assembled project document. -/
def assembleShape (n : Nat) (w : WsdlInfo)
    (test_json : List (String × List TestCaseData)) (test_options : List String) :
    List Frag × Nat :=
  let suites := suitesShapeList n test_options test_json w
  let opsSh := opsShapeList suites.2 w.operations
  (Frag.lit "<?xml version=\"1.0\" encoding=\"UTF-8\"?>\n<con:soapui-project id=\"" ::
    Frag.uuid opsSh.2 ::
    Frag.lit ("\" activeEnvironment=\"Default\" name=\"" ++ w.binding_name ++
      "-SoapUI-Project\" resourceRoot=\"\" soapui-version=\"5.7.0\" " ++
      "xmlns:con=\"http://eviware.com/soapui/config\">\n    <con:settings/>\n    " ++
      "<con:interface xsi:type=\"con:WsdlInterface\" id=\"") ::
    Frag.uuid (opsSh.2 + 1) ::
    Frag.lit ("\" name=\"" ++ w.binding_name ++ "\" bindingName=\"\x7b" ++
      w.target_namespace ++ "\x7d" ++ w.binding_name ++
      "\" soapVersion=\"1_1\" definition=\"" ++ w.file_name ++
      "\" xmlns:xsi=\"http://www.w3.org/2001/XMLSchema-instance\">\n        " ++
      "<con:settings/>\n        <con:endpoints>\n            <con:endpoint>" ++
      w.service_endpoint_url ++ "</con:endpoint>\n        </con:endpoints>\n        ") ::
    (sepFrags "\n" opsSh.1 ++
      (Frag.lit "\n    </con:interface>\n    " ::
        (sepFrags "\n" suites.1 ++
          [Frag.lit "\n    <con:properties/>\n</con:soapui-project>"]))), opsSh.2 + 2)

/-!
Pipeline-level values.  The JSON-mediated Pipeline Controller the spec
describes (§4.4) is not among the sources; only the superseded raw-XML
controller is.  The definitions below model the controller from the
spec.
-/

/-- Error reasons of one pipeline run (spec §7 taxonomy, fatal cases). -/
inductive PipelineError where
  | extractionError (e : ParseError)
  | generationUnavailable
  | invalidScenarioPayload
  | assemblyFailure (msg : String)
deriving Repr, DecidableEq

/-- Terminal value of one pipeline run: a document, or an error reason
with no document. -/
inductive GenerationResult where
  | done (document : String)
  | failed (reason : PipelineError)
deriving Repr, DecidableEq

/-- Modelled from the spec: the Pipeline Controller (§4.4, not under
src/) runs extraction first and short-circuits to `Failed` with the
originating error, skipping the remaining stages. -/
def pipelineAfterExtract (extractResult : Except ParseError WsdlInfo)
    (rest : WsdlInfo → GenerationResult) : GenerationResult :=
  match extractResult with
  | Except.error e => GenerationResult.failed (PipelineError.extractionError e)
  | Except.ok w => rest w

/-- Modelled from the spec: the recover-mode lxml parse of the non-XML
text "<not-xml" yields no document, so `parse_wsdl` receives `none`. -/
def recoverParseNotXml : Option XNode := none

/-- Modelled from the spec: the assembly stage of the Pipeline
Controller (§4.4 and §7, not under src/) invokes the renderer and turns
any exception (left component: the exception text) into an
`AssemblyFailure` reason instead of propagating it. -/
def assembleStage (render : Except String String) : GenerationResult :=
  match render with
  | Except.ok doc => GenerationResult.done doc
  | Except.error msg => GenerationResult.failed (PipelineError.assemblyFailure msg)

/-!
Concrete inputs used by the witnesses and counterexamples below.
-/

/-- The Calculator WSDL of `backend/app/test_graph.py`, as an element
tree: one binding, one port type with one declared operation (rpc-style
message parts, so the input schema is empty), one service address. -/
def calcTree : XNode :=
  .mk "wsdl:definitions"
    [("targetNamespace", "http://www.example.com/calculator"), ("name", "CalculatorService")]
    [.mk "wsdl:message" [("name", "AddRequest")]
        [.mk "wsdl:part" [("name", "a"), ("type", "xsd:int")] [],
         .mk "wsdl:part" [("name", "b"), ("type", "xsd:int")] []],
     .mk "wsdl:message" [("name", "AddResponse")]
        [.mk "wsdl:part" [("name", "result"), ("type", "xsd:int")] []],
     .mk "wsdl:portType" [("name", "CalculatorPortType")]
        [.mk "wsdl:operation" [("name", "add")]
           [.mk "wsdl:input" [("message", "tns:AddRequest")] [],
            .mk "wsdl:output" [("message", "tns:AddResponse")] []]],
     .mk "wsdl:binding" [("name", "CalculatorBinding"), ("type", "tns:CalculatorPortType")]
        [.mk "soap:binding" [("style", "rpc")] [],
         .mk "wsdl:operation" [("name", "add")]
           [.mk "soap:operation" [("soapAction", "add")] [],
            .mk "wsdl:input" [] [.mk "soap:body" [] []],
            .mk "wsdl:output" [] [.mk "soap:body" [] []]]],
     .mk "wsdl:service" [("name", "CalculatorService")]
        [.mk "wsdl:port" [("name", "CalculatorPort"), ("binding", "tns:CalculatorBinding")]
           [.mk "soap:address" [("location", "http://www.example.com/calculator")] []]]]

/-- A well-formed WSDL tree whose root carries an explicitly empty
`targetNamespace` attribute, with a resolvable binding and address. -/
def emptyTnsTree : XNode :=
  .mk "wsdl:definitions" [("targetNamespace", "")]
    [.mk "wsdl:binding" [("name", "B"), ("type", "tns:PT")] [],
     .mk "wsdl:service" []
        [.mk "wsdl:port" [] [.mk "soap:address" [("location", "http://x")] []]]]

/-- A tree with no binding element at all. -/
def bareTree : XNode := .mk "wsdl:definitions" [] []

/-- A descriptor as the extractor would produce for the spec's
end-to-end example service. -/
def exInfo : WsdlInfo :=
  { file_name := "service.wsdl", binding_name := "B",
    target_namespace := "http://x/ns", service_endpoint_url := "http://x/svc",
    operations := [{ name := "add", action := "urn:add",
                     input_schema := [("a", "int"), ("b", "int")] }] }

/-- The spec's end-to-end example case: payload a then b, one
status-code assertion. -/
def exCase : TestCaseData :=
  { name := "Add 2+2", operation := "add",
    payload := [("a", "2"), ("b", "2")],
    assertions := [{ type := some "ValidStatusCode", path := none, value := some "200" }] }

/-- A case whose operation reference resolves to no operation of
`exInfo`. -/
def danglingCase : TestCaseData :=
  { name := "Ghost", operation := "mul", payload := [("a", "1")],
    assertions := [{ type := some "ValidStatusCode", path := none, value := some "200" }] }

/-- An XPath Match assertion with a path but an empty value. -/
def emptyValueXPath : AssertionData :=
  { type := some "XPathMatch", path := some "//result", value := some "" }

/-- A SOAP Fault assertion. -/
def faultAssertion : AssertionData :=
  { type := some "SOAPFault", path := none, value := none }

/-- A readable stand-in identifier supply. -/
def exSupply : UuidSupply := fun n => "uuid-" ++ toString n

/-- A second, distinct stand-in identifier supply. -/
def exSupply2 : UuidSupply := fun n => "id" ++ toString (n + 100)

/-!
Helper lemmas.
-/

theorem renderFrags_append (f : UuidSupply) (a b : List Frag) :
    renderFrags f (a ++ b) = renderFrags f a ++ renderFrags f b := by
  induction a with
  | nil => simp [renderFrags, String.empty_append]
  | cons x xs ih => cases x <;> simp [renderFrags, ih, String.append_assoc]

theorem renderFrags_sepFrags (f : UuidSupply) (sep : String) (ls : List (List Frag)) :
    renderFrags f (sepFrags sep ls) = pyJoin sep (ls.map (renderFrags f)) := by
  induction ls with
  | nil => simp [sepFrags, pyJoin, renderFrags]
  | cons l ls ih =>
    cases ls with
    | nil => simp [sepFrags, pyJoin]
    | cons l2 ls2 =>
      simp [sepFrags, pyJoin, renderFrags_append, renderFrags, ih, String.append_assoc]

theorem payloadBody_foldl (l : List (String × String)) : ∀ s : String,
    l.foldl (fun body kv => body ++ ("<" ++ kv.1 ++ ">" ++ kv.2 ++ "</" ++ kv.1 ++ ">")) s =
      s ++ payloadBody l := by
  induction l with
  | nil => intro s; simp [payloadBody, String.append_empty]
  | cons kv l ih =>
    intro s
    simp only [payloadBody, List.foldl_cons] at *
    rw [ih, ih ("" ++ _), String.empty_append, String.append_assoc]

theorem payloadBody_cons (kv : String × String) (l : List (String × String)) :
    payloadBody (kv :: l) =
      ("<" ++ kv.1 ++ ">" ++ kv.2 ++ "</" ++ kv.1 ++ ">") ++ payloadBody l := by
  simp only [payloadBody, List.foldl_cons]
  rw [payloadBody_foldl l, String.empty_append]
  rfl

theorem payloadBody_append (xs ys : List (String × String)) :
    payloadBody (xs ++ ys) = payloadBody xs ++ payloadBody ys := by
  show (xs ++ ys).foldl _ "" = _
  rw [List.foldl_append, payloadBody_foldl ys]
  rfl

/-!
Claims.
-/

/-- Claim C1: for the WSDL text "<not-xml" — and in general for every
input on which even the recover-mode parse yields no document —
`parse_wsdl` fails with the malformed-document error, and the pipeline
result carries that reason and no document. -/
theorem claim_C1 (fileName : String) (rest : WsdlInfo → GenerationResult) :
    parse_wsdl recoverParseNotXml fileName = Except.error ParseError.malformedDocument ∧
    pipelineAfterExtract (parse_wsdl recoverParseNotXml fileName) rest =
      GenerationResult.failed (PipelineError.extractionError ParseError.malformedDocument) ∧
    ∀ doc, pipelineAfterExtract (parse_wsdl recoverParseNotXml fileName) rest ≠
      GenerationResult.done doc := by
  refine ⟨rfl, rfl, ?_⟩
  intro doc h
  simp [recoverParseNotXml, parse_wsdl, pipelineAfterExtract] at h

/-- Claim C3 counterexample: a WSDL whose root carries an explicitly
empty `targetNamespace` attribute extracts successfully into a
descriptor whose target namespace is the empty string — extraction does
not fail on an empty field. -/
theorem claim_C3_counterexample :
    ∃ info, parse_wsdl (some emptyTnsTree) "service.wsdl" = Except.ok info ∧
      info.target_namespace = "" :=
  ⟨{ file_name := "service.wsdl", binding_name := "B", target_namespace := "",
     service_endpoint_url := "http://x", operations := [] }, by rfl, rfl⟩

/-- Claim C3 (amended): the three descriptor fields come from attributes
that must be present — pydantic rejects `None` — so whenever the root's
`targetNamespace`, the binding's `name` or the address's `location`
attribute is absent, `parse_wsdl` fails instead of returning a
descriptor; an attribute that is present but empty is returned as-is. -/
theorem claim_C3_amended (t : XNode) (fileName : String)
    (h : getAttr "targetNamespace" t = none ∨
      (∀ b, findDeep "wsdl:binding" t = some b → getAttr "name" b = none) ∨
      (∀ a, findSoapAddress t = some a → getAttr "location" a = none)) :
    ∃ e, parse_wsdl (some t) fileName = Except.error e := by
  cases hb : findDeep "wsdl:binding" t with
  | none => exact ⟨ParseError.missingBinding, by simp [parse_wsdl, hb]⟩
  | some b =>
    cases ha : findSoapAddress t with
    | none => exact ⟨ParseError.missingEndpoint, by simp [parse_wsdl, hb, ha]⟩
    | some addr =>
      cases hty : getAttr "type" b with
      | none => exact ⟨ParseError.attributeError, by simp [parse_wsdl, hb, ha, hty]⟩
      | some btype =>
        cases hops :
            (match findDeepAttr "wsdl:portType" "name" (lastColonSegment btype) t with
              | none => Except.ok []
              | some pt => collectOps t b pt) with
        | error e => exact ⟨e, by simp [parse_wsdl, hb, ha, hty, hops]⟩
        | ok operations =>
          have habs : getAttr "targetNamespace" t = none ∨ getAttr "name" b = none ∨
              getAttr "location" addr = none := by
            rcases h with h1 | h2 | h3
            · exact Or.inl h1
            · exact Or.inr (Or.inl (h2 b hb))
            · exact Or.inr (Or.inr (h3 addr ha))
          refine ⟨ParseError.validationError, ?_⟩
          rcases habs with h1 | h1 | h1 <;>
            cases htn : getAttr "targetNamespace" t <;>
            cases hbn : getAttr "name" b <;>
            cases hurl : getAttr "location" addr <;>
            simp_all [parse_wsdl, hops]

/-- Claim C3 amended-theorem witness: a document with no binding at all
loses all three attributes and extraction fails. -/
theorem claim_C3_amended_witness :
    ∃ e, parse_wsdl (some bareTree) "service.wsdl" = Except.error e :=
  claim_C3_amended bareTree "service.wsdl" (Or.inl rfl)

/-- Claim C6: a scenario case whose operation reference matches no
operation name of the descriptor renders to the empty string — zero
test steps — without drawing an identifier; the renderer is total, so
nothing is raised. -/
theorem claim_C6 (f : UuidSupply) (n : Nat) (tc : TestCaseData) (w : WsdlInfo)
    (h : w.operations.find? (fun op => op.name == tc.operation) = none) :
    create_test_step_xml f n tc w = ("", n) := by
  simp [create_test_step_xml, h]

/-- Claim C6 witness: the dangling case against the example descriptor. -/
theorem claim_C6_witness :
    exInfo.operations.find? (fun op => op.name == danglingCase.operation) = none ∧
    create_test_step_xml exSupply 0 danglingCase exInfo = ("", 0) :=
  ⟨by decide, claim_C6 exSupply 0 danglingCase exInfo (by decide)⟩

/-- Claim C7: an XPath Match assertion whose value is empty is omitted
from the rendered test step (no block, no identifier drawn), while a
status-code, SOAP-response, SOAP-fault, or XPath Match assertion with
non-empty path and value each renders exactly one block. -/
theorem claim_C7 (f : UuidSupply) (n : Nat) (a : AssertionData) :
    ((a.type = some "XPathMatch" ∧ a.value.getD "" = "") →
      assertionXml f n a = (none, n)) ∧
    ((a.type = some "ValidStatusCode" ∨ a.type = some "SOAPResponse" ∨
        a.type = some "SOAPFault" ∨
        (a.type = some "XPathMatch" ∧ a.path.getD "" ≠ "" ∧ a.value.getD "" ≠ "")) →
      (assertionXml f n a).1.isSome ∧ (assertionXml f n a).2 = n + 1) := by
  constructor
  · rintro ⟨ht, hv⟩
    simp [assertionXml, ht, hv]
  · rintro (ht | ht | ht | ⟨ht, hp, hv⟩)
    · simp [assertionXml, ht]
    · simp [assertionXml, ht]
    · simp [assertionXml, ht]
    · simp [assertionXml, ht, hp, hv]

/-- Claim C7 witness: an empty-value XPath Match is dropped while a SOAP
Fault assertion of the same case is rendered. -/
theorem claim_C7_witness :
    assertionXml exSupply 5 emptyValueXPath = (none, 5) ∧
    (assertionXml exSupply 5 faultAssertion).1.isSome ∧
    (assertionXml exSupply 5 faultAssertion).2 = 5 + 1 :=
  ⟨(claim_C7 exSupply 5 emptyValueXPath).1 ⟨rfl, rfl⟩,
   (claim_C7 exSupply 5 faultAssertion).2 (Or.inr (Or.inr (Or.inl rfl)))⟩

theorem buildOp_ok (tree binding op : XNode)
    (hname : (getAttr "name" op).isSome)
    (hmsg : (op.children.find? (fun c => c.tag == "wsdl:input")).all
      (fun inp => (getAttr "message" inp).isSome) = true) :
    ∃ w, buildOp tree binding op = Except.ok w := by
  rcases hn : getAttr "name" op with _ | nm
  · rw [hn] at hname; exact absurd hname (by simp)
  · have hschema : ∃ s, inputSchemaOf tree op = Except.ok s := by
      cases hf : op.children.find? (fun c => c.tag == "wsdl:input") with
      | none => exact ⟨[], by simp [inputSchemaOf, hf]⟩
      | some inp =>
        rcases hm : getAttr "message" inp with _ | msg
        · rw [hf] at hmsg; simp [Option.all, hm] at hmsg
        · cases hmm : findDeepAttr "wsdl:message" "name" (lastColonSegment msg) tree with
          | none => exact ⟨[], by simp [inputSchemaOf, hf, hm, hmm]⟩
          | some message =>
            cases hp : message.children.find? (fun c => c.tag == "wsdl:part") with
            | none => exact ⟨[], by simp [inputSchemaOf, hf, hm, hmm, hp]⟩
            | some part =>
              cases he : getAttr "element" part with
              | none => exact ⟨[], by simp [inputSchemaOf, hf, hm, hmm, hp, he]⟩
              | some el =>
                exact ⟨get_element_schema
                    (findDeepAttr "xsd:element" "name" (lastColonSegment el) tree),
                  by simp [inputSchemaOf, hf, hm, hmm, hp, he]⟩
    obtain ⟨s, hs⟩ := hschema
    exact ⟨{ name := nm, action := soapActionOf binding (some nm), input_schema := s },
      by simp [buildOp, hs, hn]⟩

theorem collectOpsList_ok (tree binding : XNode) :
    ∀ l : List XNode, (∀ op ∈ l, ∃ w, buildOp tree binding op = Except.ok w) →
      ∃ ws, collectOpsList tree binding l = Except.ok ws ∧ ws.length = l.length := by
  intro l
  induction l with
  | nil => intro _; exact ⟨[], rfl, rfl⟩
  | cons op rest ih =>
    intro h
    obtain ⟨w, hw⟩ := h op (List.mem_cons_self op rest)
    obtain ⟨ws, hws, hlen⟩ := ih (fun x hx => h x (List.mem_cons_of_mem op hx))
    exact ⟨w :: ws, by simp [collectOpsList, hw, hws], by simp [hlen]⟩

/-- Claim C2: for a well-formed WSDL whose binding (with name and type
attributes), port type and service address (with location) all resolve,
whose root carries a target namespace, and whose declared operations
each carry a name and, when they have an input element, a message
reference, `parse_wsdl` returns a descriptor with exactly one extracted
operation per declared port-type operation, each carrying its (possibly
empty) name-to-type-tag input schema. -/
theorem claim_C2 (t : XNode) (fileName : String)
    (b : XNode) (hb : findDeep "wsdl:binding" t = some b)
    (bn : String) (hbn : getAttr "name" b = some bn)
    (tn : String) (htn : getAttr "targetNamespace" t = some tn)
    (addr : XNode) (ha : findSoapAddress t = some addr)
    (url : String) (hurl : getAttr "location" addr = some url)
    (btype : String) (hty : getAttr "type" b = some btype)
    (pt : XNode)
    (hpt : findDeepAttr "wsdl:portType" "name" (lastColonSegment btype) t = some pt)
    (hops : ∀ op ∈ pt.children.filter (fun n => n.tag == "wsdl:operation"),
      (getAttr "name" op).isSome ∧
      (op.children.find? (fun c => c.tag == "wsdl:input")).all
        (fun inp => (getAttr "message" inp).isSome) = true) :
    ∃ ops, parse_wsdl (some t) fileName =
        Except.ok { file_name := fileName, binding_name := bn, target_namespace := tn,
                    service_endpoint_url := url, operations := ops } ∧
      ops.length = (pt.children.filter (fun n => n.tag == "wsdl:operation")).length := by
  have hall : ∀ op ∈ pt.children.filter (fun n => n.tag == "wsdl:operation"),
      ∃ w, buildOp t b op = Except.ok w :=
    fun op hop => buildOp_ok t b op (hops op hop).1 (hops op hop).2
  obtain ⟨ws, hws, hlen⟩ := collectOpsList_ok t b _ hall
  refine ⟨ws, ?_, hlen⟩
  simp [parse_wsdl, hb, ha, hty, hpt, collectOps, hws, htn, hbn, hurl]

/-- Claim C2 witness: the Calculator WSDL of the repository's test file,
with one declared operation. -/
theorem claim_C2_witness :
    ∃ ops, parse_wsdl (some calcTree) "service.wsdl" =
        Except.ok { file_name := "service.wsdl", binding_name := "CalculatorBinding",
                    target_namespace := "http://www.example.com/calculator",
                    service_endpoint_url := "http://www.example.com/calculator",
                    operations := ops } ∧
      ops.length = 1 := by
  obtain ⟨ops, hok, hlen⟩ :=
    claim_C2 calcTree "service.wsdl"
      (XNode.mk "wsdl:binding"
        [("name", "CalculatorBinding"), ("type", "tns:CalculatorPortType")]
        [XNode.mk "soap:binding" [("style", "rpc")] [],
         XNode.mk "wsdl:operation" [("name", "add")]
           [XNode.mk "soap:operation" [("soapAction", "add")] [],
            XNode.mk "wsdl:input" [] [XNode.mk "soap:body" [] []],
            XNode.mk "wsdl:output" [] [XNode.mk "soap:body" [] []]]]) rfl
      "CalculatorBinding" rfl
      "http://www.example.com/calculator" rfl
      (XNode.mk "soap:address" [("location", "http://www.example.com/calculator")] []) rfl
      "http://www.example.com/calculator" rfl
      "tns:CalculatorPortType" rfl
      (XNode.mk "wsdl:portType" [("name", "CalculatorPortType")]
        [XNode.mk "wsdl:operation" [("name", "add")]
           [XNode.mk "wsdl:input" [("message", "tns:AddRequest")] [],
            XNode.mk "wsdl:output" [("message", "tns:AddResponse")] []]]) rfl
      (by decide)
  exact ⟨ops, hok, by rw [hlen]; rfl⟩

/-- Claim C5: when a case's operation reference resolves, the rendered
test step's request body lists the payload's field elements in payload
insertion order — any two payload entries occur in the output in their
payload order. -/
theorem claim_C5 (f : UuidSupply) (n : Nat) (tc : TestCaseData) (w : WsdlInfo)
    (op : WsdlOperation)
    (hop : w.operations.find? (fun o => o.name == tc.operation) = some op)
    (xs ys zs : List (String × String)) (k v k' v' : String)
    (hsplit : tc.payload = xs ++ (k, v) :: (ys ++ (k', v') :: zs)) :
    ∃ p q r, (create_test_step_xml f n tc w).1 =
      p ++ ("<" ++ k ++ ">" ++ v ++ "</" ++ k ++ ">") ++ q ++
        ("<" ++ k' ++ ">" ++ v' ++ "</" ++ k' ++ ">") ++ r := by
  rcases hax : assertionsXmlList f n tc.assertions with ⟨axs, n'⟩
  refine ⟨stepPartA tc.name w.binding_name tc.operation w.service_endpoint_url ++
      envOpen w.target_namespace op.name ++ payloadBody xs,
    payloadBody ys,
    payloadBody zs ++ envClose op.name ++ stepPartB ++ pyJoin "\n" axs ++ stepPartC, ?_⟩
  simp [create_test_step_xml, hop, hax, build_request_payload, hsplit,
    payloadBody_append, payloadBody_cons, String.append_assoc]

/-- Claim C5 witness: the spec's example payload, a then b, renders with
the a element before the b element. -/
theorem claim_C5_witness :
    ∃ p q r, (create_test_step_xml exSupply 0 exCase exInfo).1 =
      p ++ ("<" ++ "a" ++ ">" ++ "2" ++ "</" ++ "a" ++ ">") ++ q ++
        ("<" ++ "b" ++ ">" ++ "2" ++ "</" ++ "b" ++ ">") ++ r :=
  claim_C5 exSupply 0 exCase exInfo
    { name := "add", action := "urn:add", input_schema := [("a", "int"), ("b", "int")] }
    (by decide) [] [] [] "a" "2" "b" "2" rfl

/-- Claim C8: in the assembler's suite loop, a requested category absent
from the scenario mapping contributes no suite block, while a category
present with an empty case list contributes exactly one suite block
containing zero test cases. -/
theorem claim_C8 (f : UuidSupply) (n : Nat) (w : WsdlInfo)
    (test_json : List (String × List TestCaseData)) (rest : List String) (t : String) :
    (test_json.lookup t = none →
      testSuitesXmlList f n (t :: rest) test_json w =
        testSuitesXmlList f n rest test_json w) ∧
    (test_json.lookup t = some [] →
      (testSuitesXmlList f n (t :: rest) test_json w).1 =
        ("<con:testSuite id=\"" ++ f n ++ "\" name=\"" ++ suiteNameFor t ++
          "\">\n    <con:settings/>\n    <con:runType>SEQUENTIAL</con:runType>\n    " ++
          "" ++ "\n</con:testSuite>") ::
          (testSuitesXmlList f (n + 1) rest test_json w).1) := by
  constructor
  · intro h
    simp [testSuitesXmlList, h]
  · intro h
    simp [testSuitesXmlList, h, create_test_suite_xml, testCasesXmlList, pyJoin,
      String.append_empty, String.append_assoc]

/-- Claim C8 witness: the category "missing" is absent from the mapping
and contributes nothing; the category "edge" maps to zero cases and
contributes one empty suite block. -/
theorem claim_C8_witness :
    testSuitesXmlList exSupply 0 ["missing"] [("edge", [])] exInfo =
      testSuitesXmlList exSupply 0 [] [("edge", [])] exInfo ∧
    (testSuitesXmlList exSupply 0 ["edge"] [("edge", [])] exInfo).1 =
      ("<con:testSuite id=\"" ++ exSupply 0 ++ "\" name=\"" ++ suiteNameFor "edge" ++
        "\">\n    <con:settings/>\n    <con:runType>SEQUENTIAL</con:runType>\n    " ++
        "" ++ "\n</con:testSuite>") ::
        (testSuitesXmlList exSupply 1 [] [("edge", [])] exInfo).1 :=
  ⟨(claim_C8 exSupply 0 exInfo [("edge", [])] [] "missing").1 (by decide),
   (claim_C8 exSupply 0 exInfo [("edge", [])] [] "edge").2 (by decide)⟩

/-- Claim C10: the suite loop renders exactly one test-case block per
scenario case, and a case whose operation reference is unresolved still
yields its block — fresh identifier and case name — containing zero test
steps, rather than being skipped. -/
theorem claim_C10 (f : UuidSupply) (tc : TestCaseData) (w : WsdlInfo) :
    (∀ (m : Nat) (cases : List TestCaseData),
      ((testCasesXmlList f m cases w).1).length = cases.length) ∧
    ∀ n : Nat, w.operations.find? (fun op => op.name == tc.operation) = none →
      create_test_case_xml f n tc w =
        ("<con:testCase id=\"" ++ f n ++ "\" name=\"" ++ tc.name ++
          "\">\n    <con:settings/>\n    " ++ "" ++ "\n</con:testCase>", n + 1) := by
  constructor
  · intro m cases
    induction cases generalizing m with
    | nil => simp [testCasesXmlList]
    | cons tc0 rest ih =>
      rcases h1 : create_test_case_xml f m tc0 w with ⟨s, n'⟩
      simp [testCasesXmlList, h1, ih]
  · intro n h
    simp [create_test_case_xml, create_test_step_xml, h, String.append_empty,
      String.append_assoc]

/-- Claim C10 witness: the dangling case still produces one test-case
block with zero steps. -/
theorem claim_C10_witness :
    ((testCasesXmlList exSupply 0 [danglingCase] exInfo).1).length = 1 ∧
    create_test_case_xml exSupply 0 danglingCase exInfo =
      ("<con:testCase id=\"" ++ exSupply 0 ++ "\" name=\"" ++ danglingCase.name ++
        "\">\n    <con:settings/>\n    " ++ "" ++ "\n</con:testCase>", 0 + 1) :=
  ⟨(claim_C10 exSupply danglingCase exInfo).1 0 [danglingCase],
   (claim_C10 exSupply danglingCase exInfo).2 0 (by decide)⟩

theorem assertionXml_factor (f : UuidSupply) (n : Nat) (a : AssertionData) :
    (assertionXml f n a).1 = ((assertionShape n a).1).map (renderFrags f) ∧
    (assertionXml f n a).2 = (assertionShape n a).2 := by
  simp only [assertionXml, assertionShape]
  split_ifs <;>
    simp [renderFrags, String.append_assoc, String.append_empty]

theorem assertionsXmlList_factor (f : UuidSupply) : ∀ (n : Nat) (l : List AssertionData),
    (assertionsXmlList f n l).1 = ((assertionShapesList n l).1).map (renderFrags f) ∧
    (assertionsXmlList f n l).2 = (assertionShapesList n l).2 := by
  intro n l
  induction l generalizing n with
  | nil => simp [assertionsXmlList, assertionShapesList]
  | cons a rest ih =>
    obtain ⟨h1, h2⟩ := assertionXml_factor f n a
    obtain ⟨ih1, ih2⟩ := ih (assertionShape n a).2
    cases ho : (assertionShape n a).1 <;>
      simp [assertionsXmlList, assertionShapesList, h1, h2, ho, ih1, ih2]

theorem create_test_step_xml_factor (f : UuidSupply) (n : Nat) (tc : TestCaseData)
    (w : WsdlInfo) :
    create_test_step_xml f n tc w =
      (renderFrags f (stepShape n tc w).1, (stepShape n tc w).2) := by
  cases hf : w.operations.find? (fun op => op.name == tc.operation) with
  | none => simp [create_test_step_xml, stepShape, hf, renderFrags]
  | some op =>
    obtain ⟨h1, h2⟩ := assertionsXmlList_factor f n tc.assertions
    simp [create_test_step_xml, stepShape, hf, h1, h2, renderFrags, renderFrags_append,
      renderFrags_sepFrags, String.append_assoc, String.append_empty]

theorem create_test_case_xml_factor (f : UuidSupply) (n : Nat) (tc : TestCaseData)
    (w : WsdlInfo) :
    create_test_case_xml f n tc w =
      (renderFrags f (caseShape n tc w).1, (caseShape n tc w).2) := by
  have h := create_test_step_xml_factor f n tc w
  simp [create_test_case_xml, caseShape, h, renderFrags, renderFrags_append,
    String.append_assoc, String.append_empty]

theorem testCasesXmlList_factor (f : UuidSupply) (w : WsdlInfo) :
    ∀ (n : Nat) (cases : List TestCaseData),
    testCasesXmlList f n cases w =
      (((casesShapeList n cases w).1).map (renderFrags f),
        (casesShapeList n cases w).2) := by
  intro n cases
  induction cases generalizing n with
  | nil => simp [testCasesXmlList, casesShapeList]
  | cons tc rest ih =>
    have h := create_test_case_xml_factor f n tc w
    simp [testCasesXmlList, casesShapeList, h, ih (caseShape n tc w).2]

theorem create_test_suite_xml_factor (f : UuidSupply) (n : Nat) (suite_name : String)
    (cases : List TestCaseData) (w : WsdlInfo) :
    create_test_suite_xml f n suite_name cases w =
      (renderFrags f (suiteShape n suite_name cases w).1,
        (suiteShape n suite_name cases w).2) := by
  have h := testCasesXmlList_factor f w n cases
  simp [create_test_suite_xml, suiteShape, h, renderFrags, renderFrags_append,
    renderFrags_sepFrags, String.append_assoc, String.append_empty]

theorem testSuitesXmlList_factor (f : UuidSupply) (w : WsdlInfo)
    (test_json : List (String × List TestCaseData)) :
    ∀ (n : Nat) (test_options : List String),
    testSuitesXmlList f n test_options test_json w =
      (((suitesShapeList n test_options test_json w).1).map (renderFrags f),
        (suitesShapeList n test_options test_json w).2) := by
  intro n test_options
  induction test_options generalizing n with
  | nil => simp [testSuitesXmlList, suitesShapeList]
  | cons t rest ih =>
    cases hl : test_json.lookup t with
    | none => simpa [testSuitesXmlList, suitesShapeList, hl] using ih n
    | some cases =>
      have h := create_test_suite_xml_factor f n (suiteNameFor t) cases w
      simp [testSuitesXmlList, suitesShapeList, hl, h,
        ih (suiteShape n (suiteNameFor t) cases w).2]

theorem operationsXmlList_factor (f : UuidSupply) :
    ∀ (n : Nat) (ops : List WsdlOperation),
    operationsXmlList f n ops =
      (((opsShapeList n ops).1).map (renderFrags f), (opsShapeList n ops).2) := by
  intro n ops
  induction ops generalizing n with
  | nil => simp [operationsXmlList, opsShapeList]
  | cons op rest ih =>
    simp [operationsXmlList, opsShapeList, ih (n + 1), renderFrags,
      String.append_assoc, String.append_empty]

theorem assemble_full_project_xml_factor (f : UuidSupply) (n : Nat) (w : WsdlInfo)
    (test_json : List (String × List TestCaseData)) (test_options : List String) :
    assemble_full_project_xml f n w test_json test_options =
      (renderFrags f (assembleShape n w test_json test_options).1,
        (assembleShape n w test_json test_options).2) := by
  have hsu := testSuitesXmlList_factor f w test_json n test_options
  have hop := operationsXmlList_factor f
    (suitesShapeList n test_options test_json w).2 w.operations
  simp [assemble_full_project_xml, assembleShape, hsu, hop, renderFrags,
    renderFrags_append, renderFrags_sepFrags, String.append_assoc, String.append_empty]

/-- Claim C4: two renders of the same descriptor, scenario set and
category list factor through the same supply-independent fragment
skeleton — literal text, element nesting, ordering and identifier-token
count and positions are identical across the two runs; the outputs
differ only in the identifier tokens substituted into that skeleton. -/
theorem claim_C4 (f g : UuidSupply) (n : Nat) (w : WsdlInfo)
    (test_json : List (String × List TestCaseData)) (test_options : List String) :
    (assemble_full_project_xml f n w test_json test_options).1 =
      renderFrags f (assembleShape n w test_json test_options).1 ∧
    (assemble_full_project_xml g n w test_json test_options).1 =
      renderFrags g (assembleShape n w test_json test_options).1 :=
  ⟨by rw [assemble_full_project_xml_factor], by rw [assemble_full_project_xml_factor]⟩

/-- Claim C9: the assembly stage of the pipeline controller reports any
renderer exception as an assembly-failure reason and never propagates it
raw — its result is exhaustively either a completed document or an
assembly-failure; the embedded renderer's (total) output is delivered as
a document. -/
theorem claim_C9 (render : Except String String) :
    ((∃ doc, assembleStage render = GenerationResult.done doc) ∨
      (∃ msg, assembleStage render =
        GenerationResult.failed (PipelineError.assemblyFailure msg))) ∧
    ∀ (f : UuidSupply) (n : Nat) (w : WsdlInfo)
      (test_json : List (String × List TestCaseData)) (test_options : List String),
      assembleStage
          (Except.ok (assemble_full_project_xml f n w test_json test_options).1) =
        GenerationResult.done (assemble_full_project_xml f n w test_json test_options).1 := by
  constructor
  · cases render with
    | ok doc => exact Or.inl ⟨doc, rfl⟩
    | error msg => exact Or.inr ⟨msg, rfl⟩
  · intro f n w test_json test_options
    rfl
